import Mathlib

/-!
Shallow embedding of src/stickerbot.py: the pack allocation and
deduplication state machine of the sticker hoover bot.

The Python module-level dict `state` becomes `BotState`; the module-level
set `_seen` travels next to it in `Globals` together with the
`error_count` and `total_processed` counters.  Calls to the Telegram API
(`get_sticker_set`, `create_new_sticker_set`, `add_sticker_to_set`,
file download, Pillow) are oracles supplied through `Env` and
`ResizeEnv`.  Observable side effects (directory mutations, reactions,
messages, `save_state`) are recorded in an effect trace so that frame
conditions can be stated.
-/

namespace Stickerbot

/-- Capacity of a static pack (`MAX_STATIC` in the source). -/
def MAX_STATIC : Nat := 120

/-- Capacity of an animated or video pack (`MAX_ANIM`). -/
def MAX_ANIM : Nat := 50

/-- Maximum side length of a static sticker (`MAX_SIDE_STATIC`). -/
def MAX_SIDE_STATIC : Nat := 512

/-- Processing queue capacity (`MAX_QUEUE_SIZE`). -/
def MAX_QUEUE_SIZE : Nat := 50

/-- Default pack base name (`PACK_BASENAME`, env default "stickies"). -/
def PACK_BASENAME : String := "stickies"

/-- The fields of `types.Sticker` that the script reads. -/
structure Sticker where
  file_unique_id : String
  file_id : String
  is_animated : Bool
  is_video : Bool
  width : Nat
  height : Nat
deriving Repr, DecidableEq

/-- `st.is_animated or st.is_video`, the kind test used in `process_sticker`. -/
def anim (st : Sticker) : Bool := st.is_animated || st.is_video

/-- `_tg_format` from the source. -/
def _tg_format (st : Sticker) : String :=
  if st.is_animated then "animated" else if st.is_video then "video" else "static"

/-- The persisted `state` dict: keys index, count, current_pack, is_animated, seen. -/
structure BotState where
  index : Nat
  count : Nat
  current_pack : String
  is_animated : Bool
  seen : List String
deriving Repr, DecidableEq

/-- `_blank_state()` from the source. -/
def _blank_state : BotState :=
  { index := 1, count := 0, current_pack := "", is_animated := false, seen := [] }

/-- The reset performed by `_sync_state` when the saved current pack is
reported missing: `state.update(_blank_state())`, which replaces every
key of the dict (index, count, current_pack, is_animated, seen). -/
def sync_reset (_s : BotState) : BotState := _blank_state

/-- The reset performed by `process_sticker` when `_add` reports the pack
invalid: only `state["current_pack"] = ""` is executed. -/
def append_fail_reset (s : BotState) : BotState := { s with current_pack := "" }

/-- `_clean`: lowercase, then strip every character outside [a-z0-9_]. -/
def _clean (txt : String) : String :=
  String.mk ((txt.data.map Char.toLower).filter fun c =>
    decide ((97 ≤ c.toNat ∧ c.toNat ≤ 122) ∨ (48 ≤ c.toNat ∧ c.toNat ≤ 57) ∨ c = '_'))

/-- One slug candidate: the f-string of `_slug`, truncated to 64 characters. -/
def slug_candidate (base bot : String) (i : Nat) : String :=
  (base ++ "_" ++ toString i ++ "_by_" ++ bot).take 64

/-- Outcome of one `bot.get_sticker_set(name=s)` call as `_slug` observes it:
the set exists (call returns), a `TelegramBadRequest` whose message contains
STICKERSET_INVALID, a `TelegramBadRequest` without that marker, or any other
exception. -/
inductive GetResp
  | found
  | invalid
  | badOther
  | fatal
deriving Repr, DecidableEq

/-- How `_slug` can fail: the probe window of 1000 candidates is exhausted
(`RuntimeError("No free slug")`), or a non-BadRequest exception escaped. -/
inductive SlugErr
  | exhausted
  | fatalErr
deriving Repr, DecidableEq

/-- The loop body of `_slug`.  Note the faithful wart: a `TelegramBadRequest`
whose message does not contain STICKERSET_INVALID is caught by the
`except TelegramBadRequest` clause, the `if` does not fire, nothing re-raises,
and the loop continues with the next candidate. -/
def slug_probe (dir : String → GetResp) (base bot : String) : Nat → Nat → Except SlugErr String
  | _, 0 => Except.error SlugErr.exhausted
  | i, fuel + 1 =>
    match dir (slug_candidate base bot i) with
    | GetResp.invalid => Except.ok (slug_candidate base bot i)
    | GetResp.found => slug_probe dir base bot (i + 1) fuel
    | GetResp.badOther => slug_probe dir base bot (i + 1) fuel
    | GetResp.fatal => Except.error SlugErr.fatalErr

/-- `_slug(base, bot_user, start)`: 1000 probe attempts from `start` upward. -/
def _slug (dir : String → GetResp) (base bot_user : String) (start : Nat) : Except SlugErr String :=
  slug_probe dir (_clean base) (_clean bot_user) start 1000

/-- What `_maybe_resize_static` returns on success: the original `file_id`,
or a `BufferedInputFile` with the re-encoded PNG (modelled by its size). -/
inductive StickerSource
  | fileId (id : String)
  | buffered (bytes : Nat)
deriving Repr, DecidableEq

/-- The environment `_maybe_resize_static` runs in: whether Pillow imported,
`processing_queue.qsize()`, the downloaded payload size (none if
`get_file`/`download_file` raises), and whether the Pillow open/thumbnail/save
sequence succeeds, with the size of its output. -/
structure ResizeEnv where
  pillow : Bool
  queue_size : Nat
  download : Option Nat
  resize_ok : Bool
  resized_bytes : Nat
deriving Repr, DecidableEq

/-- `_maybe_resize_static`, with each `raise ValueError(...)` mapped to
`Except.error` of its message.  The float thresholds `MAX_QUEUE_SIZE * 0.8`
and `MAX_QUEUE_SIZE * 0.5` compared against an integer qsize are expressed
over naturals by scaling both sides by 10.  The ValueError raised by the
oversized-payload check sits inside the download try-block, so it is caught
by `except Exception` and re-raised as `ValueError("Download failed")`. -/
def _maybe_resize_static (env : ResizeEnv) (st : Sticker) : Except String StickerSource :=
  if anim st then Except.ok (StickerSource.fileId st.file_id)
  else if st.width ≤ MAX_SIDE_STATIC ∧ st.height ≤ MAX_SIDE_STATIC then
    Except.ok (StickerSource.fileId st.file_id)
  else if MAX_QUEUE_SIZE * 8 < env.queue_size * 10 ∧ (2048 < st.width ∨ 2048 < st.height) then
    Except.error "Skipping large resize during high load"
  else if env.pillow = false then Except.error "Need Pillow for resizing"
  else
    match env.download with
    | none => Except.error "Download failed"
    | some n =>
      if MAX_QUEUE_SIZE * 5 < env.queue_size * 10 ∧ 10 * 1024 * 1024 < n then
        Except.error "Download failed"
      else if env.resize_ok then Except.ok (StickerSource.buffered env.resized_bytes)
      else Except.error "Resize failed"

/-- Outcome of one `bot.add_sticker_to_set` call as `_add` observes it. -/
inductive AddResp
  | ok
  | invalid
  | err
deriving Repr, DecidableEq

/-- What `_add` reports to `process_sticker`: True, False, or an exception. -/
inductive AddOutcome
  | success
  | packInvalid
  | raised
deriving Repr, DecidableEq

/-- The oracle bundle for one admission: the resize environment, the
`get_sticker_set` oracle used by `_slug`, whether `create_new_sticker_set`
succeeds for a given name, the `add_sticker_to_set` oracle (pack name and
file_unique_id), and the bot username. -/
structure Env where
  resize : ResizeEnv
  dir : String → GetResp
  create_ok : String → Bool
  add : String → String → AddResp
  bot_user : String

/-- Observable side effects, in program order. -/
inductive Effect
  | resizeAttempt (id : String)
  | createSet (name : String) (id : String) (kind : Bool)
  | appendSet (name : String) (id : String) (kind : Bool)
  | sendMessage (text : String)
  | react (thumbsUp : Bool) (reason : String)
  | save
deriving Repr, DecidableEq

/-- Recognizer for pack-creation effects. -/
def is_create : Effect → Bool
  | Effect.createSet _ _ _ => true
  | _ => false

/-- Recognizer for pack-append effects. -/
def is_append : Effect → Bool
  | Effect.appendSet _ _ _ => true
  | _ => false

/-- `_add(st, pack, chat_id)`: resize first; a ValueError from the resize is
caught and the function returns True ("skip silently if resize failed"), so
no directory call happens yet the caller sees success.  On
`add_sticker_to_set`: ok gives True, STICKERSET_INVALID gives False, any
other error re-raises. -/
def _add (env : Env) (st : Sticker) (pack : String) : AddOutcome × List Effect :=
  match _maybe_resize_static env.resize st with
  | Except.error _ => (AddOutcome.success, [Effect.resizeAttempt st.file_unique_id])
  | Except.ok _ =>
    match env.add pack st.file_unique_id with
    | AddResp.ok =>
      (AddOutcome.success,
        [Effect.resizeAttempt st.file_unique_id, Effect.appendSet pack st.file_unique_id (anim st)])
    | AddResp.invalid => (AddOutcome.packInvalid, [Effect.resizeAttempt st.file_unique_id])
    | AddResp.err => (AddOutcome.raised, [Effect.resizeAttempt st.file_unique_id])

/-- `_new_pack(st, chat_id)`: slug from `state["index"]`, then resize, then
`create_new_sticker_set`, then the announcement message.  Any failure
(slug exhausted or fatal, resize ValueError, create error) re-raises to
the caller. -/
def _new_pack (env : Env) (s : BotState) (st : Sticker) : Except Unit String × List Effect :=
  match _slug env.dir PACK_BASENAME env.bot_user s.index with
  | Except.error _ => (Except.error (), [])
  | Except.ok name =>
    match _maybe_resize_static env.resize st with
    | Except.error _ => (Except.error (), [Effect.resizeAttempt st.file_unique_id])
    | Except.ok _ =>
      if env.create_ok name then
        (Except.ok name,
          [Effect.resizeAttempt st.file_unique_id,
           Effect.createSet name st.file_unique_id (anim st),
           Effect.sendMessage ("New pack created https://t.me/addstickers/" ++ name)])
      else (Except.error (), [Effect.resizeAttempt st.file_unique_id])

/-- The module-level mutable globals touched by `process_sticker`. -/
structure Globals where
  st : BotState
  seenSet : List String
  error_count : Nat
  total_processed : Nat
deriving Repr, DecidableEq

/-- Result of one `process_sticker` invocation: the new globals, the effect
trace, and whether the message was re-queued (`processing_queue.put(msg)`). -/
structure StepResult where
  g : Globals
  effects : List Effect
  requeued : Bool
deriving Repr, DecidableEq

/-- The in-place mutation done when `needs_new_pack` is true, before any
pack is created: `state["index"] += 1 if state["current_pack"] else 0`,
`state["count"] = 0`, `state["is_animated"] = anim`. -/
def roll (s : BotState) (a : Bool) : BotState :=
  { s with
    index := s.index + (if s.current_pack = "" then 0 else 1)
    count := 0
    is_animated := a }

/-- Set-insertion on the `_seen` set (`_seen.add(st.file_unique_id)`). -/
def seen_add (seen : List String) (id : String) : List String :=
  if seen.contains id then seen else id :: seen

/-- The tail of `process_sticker`: the `try: success = _add(...)` block.
On False: blank `current_pack`, save, re-queue the message.  On True:
`count += 1`, `_seen.add`, `state["seen"] = list(_seen)`, save, thumbs-up
reaction.  On a raised exception: thumbs-down reaction and
`error_count += 1` (earlier state mutations are kept, nothing is saved). -/
def after_add (env : Env) (g : Globals) (st : Sticker) (effs : List Effect) : StepResult :=
  match _add env st g.st.current_pack with
  | (AddOutcome.packInvalid, e2) =>
    { g := { g with st := { g.st with current_pack := "" } }
      effects := effs ++ e2 ++ [Effect.save]
      requeued := true }
  | (AddOutcome.success, e2) =>
    { g := { g with
        st := { g.st with count := g.st.count + 1, seen := seen_add g.seenSet st.file_unique_id }
        seenSet := seen_add g.seenSet st.file_unique_id }
      effects := effs ++ e2 ++
        [Effect.save, Effect.react true ("added to pack " ++ g.st.current_pack)]
      requeued := false }
  | (AddOutcome.raised, e2) =>
    { g := { g with error_count := g.error_count + 1 }
      effects := effs ++ e2 ++ [Effect.react false "processing failed"]
      requeued := false }

/-- `process_sticker(msg)`.  The dedup check runs before the rate-limit sleep
and before `total_processed += 1`.  When `needs_new_pack` holds, the state is
mutated in place first; a failure of `_new_pack` leaves those mutations behind,
sends a thumbs-down reaction and bumps `error_count`.  (The circuit-breaker
sleep, the rate-limit sleep and the LUKE_ID troll message, pure delays or
disabled by default config, are not modelled.) -/
def process_sticker (env : Env) (g : Globals) (st : Sticker) : StepResult :=
  if g.seenSet.contains st.file_unique_id then { g := g, effects := [], requeued := false }
  else if g.st.current_pack = "" ∨ (if anim st then MAX_ANIM else MAX_STATIC) ≤ g.st.count ∨
      g.st.is_animated ≠ anim st then
    match _new_pack env (roll g.st (anim st)) st with
    | (Except.error _, effs) =>
      { g := { g with
          st := roll g.st (anim st)
          error_count := g.error_count + 1
          total_processed := g.total_processed + 1 }
        effects := effs ++ [Effect.react false "pack creation failed"]
        requeued := false }
    | (Except.ok name, effs) =>
      after_add env
        { g with
          st := { roll g.st (anim st) with current_pack := name }
          total_processed := g.total_processed + 1 } st
        (effs ++ [Effect.save])
  else
    after_add env { g with total_processed := g.total_processed + 1 } st []

/-- Fold `process_sticker` over a list of incoming stickers (the worker loop,
ignoring re-queued messages). -/
def run (env : Env) (g : Globals) : List Sticker → Globals
  | [] => g
  | st :: rest => run env (process_sticker env g st).g rest

/-- Kind-specific capacity: `MAX_ANIM if anim else MAX_STATIC`. -/
def capacity (k : Bool) : Nat := if k then MAX_ANIM else MAX_STATIC

/-- The capacity invariant on the allocator state. -/
def Inv (g : Globals) : Prop :=
  g.st.current_pack ≠ "" → g.st.count ≤ capacity g.st.is_animated

/-- `hoover(msg)`: `put_nowait` on the bounded queue; on `QueueFull` the
item is dropped and a thumbs-down "queue full" reaction is sent.  The
queue is created with `maxsize=MAX_QUEUE_SIZE`. -/
def hoover (queue : List String) (id : String) : List String × Option Effect :=
  if queue.length < MAX_QUEUE_SIZE then (queue ++ [id], none)
  else (queue, some (Effect.react false "queue full - try again later"))

/-- The body of the /status reply.  The float percentage formatting of the
error rate is abstracted into plain integer rendering; the reply carries the
same data as the source f-string. -/
def status_text (queue_size total_processed error_count count seen_count log_count : Nat)
    (current_pack : String) : String :=
  "Bot Status: queue size " ++ toString queue_size ++ ", total processed " ++
    toString total_processed ++ ", errors " ++ toString error_count ++
    ", current pack " ++ current_pack ++ ", pack count " ++ toString count ++
    ", seen stickers " ++ toString seen_count ++ ", log entries " ++ toString log_count

/-- `status_cmd(msg)`: replies only when the sender is the owner. -/
def status_cmd (owner_id sender : Int)
    (queue_size total_processed error_count count seen_count log_count : Nat)
    (current_pack : String) : Option String :=
  if sender ≠ owner_id then none
  else some (status_text queue_size total_processed error_count count seen_count log_count
    current_pack)

/-- `logs_cmd(msg)`: replies only when the sender is the owner; shows the
last 20 entries, truncated at 4000 characters. -/
def logs_cmd (owner_id sender : Int) (logs : List String) : Option String :=
  if sender ≠ owner_id then none
  else if logs = [] then some "No logs available."
  else
    let recent := logs.drop (logs.length - 20)
    let text := "Recent Logs:\n\n" ++ String.intercalate "\n" recent
    some (if 4000 < text.length then text.take 4000 ++ "...\n[truncated]" else text)

/-! Concrete fixtures used to evaluate the model at specific inputs. -/

/-- A resize environment in which everything works and load is low. -/
def resizeGood : ResizeEnv :=
  { pillow := true, queue_size := 0, download := some 1000, resize_ok := true, resized_bytes := 100 }

/-- Directory oracle: every probed name is reported STICKERSET_INVALID (free). -/
def dirAllFree : String → GetResp := fun _ => GetResp.invalid

/-- Environment where every Telegram call succeeds. -/
def envOk : Env :=
  { resize := resizeGood, dir := dirAllFree, create_ok := fun _ => true,
    add := fun _ _ => AddResp.ok, bot_user := "packbot" }

/-- Environment where every append reports STICKERSET_INVALID. -/
def envInvalidAdd : Env := { envOk with add := fun _ _ => AddResp.invalid }

/-- Environment where Pillow is not importable (resize unavailable). -/
def envNoPillow : Env :=
  { envOk with resize :=
    { pillow := false, queue_size := 0, download := none, resize_ok := false, resized_bytes := 0 } }

/-- Environment where `create_new_sticker_set` always fails. -/
def envCreateFail : Env := { envOk with create_ok := fun _ => false }

/-- Environment where appends to the pack named "oldpack" report
STICKERSET_INVALID while every other call succeeds. -/
def envVanishOld : Env :=
  { envOk with add := fun p _ => if p = "oldpack" then AddResp.invalid else AddResp.ok }

/-- A small static sticker, within the 512 px bounds. -/
def stSmall : Sticker :=
  { file_unique_id := "x1", file_id := "fx1", is_animated := false, is_video := false,
    width := 100, height := 100 }

/-- An oversized static sticker (600 x 600). -/
def stBig : Sticker :=
  { file_unique_id := "y1", file_id := "fy1", is_animated := false, is_video := false,
    width := 600, height := 600 }

/-- A very wide static sticker (3000 x 100). -/
def stWide : Sticker :=
  { file_unique_id := "z1", file_id := "fz1", is_animated := false, is_video := false,
    width := 3000, height := 100 }

/-- An animated sticker. -/
def stAnimD : Sticker :=
  { file_unique_id := "d1", file_id := "fd1", is_animated := true, is_video := false,
    width := 512, height := 512 }

/-- Another animated sticker. -/
def stAnimE : Sticker :=
  { file_unique_id := "e1", file_id := "fe1", is_animated := true, is_video := false,
    width := 512, height := 512 }

/-- Mid-stream state: a static pack with 3 members is being filled. -/
def gMid : Globals :=
  { st := { index := 2, count := 3, current_pack := "stickies_2_by_packbot",
            is_animated := false, seen := [] },
    seenSet := [], error_count := 0, total_processed := 0 }

/-- Like `gMid` but the current pack has a name outside the slug space. -/
def gOld : Globals := { gMid with st := { gMid.st with current_pack := "oldpack" } }

/-- The state after the vanished pack was blanked (current_pack empty). -/
def gBlank : Globals := { gMid with st := { gMid.st with current_pack := "" } }

/-- A static pack filled to capacity (120 members). -/
def gFull : Globals :=
  { st := { index := 1, count := 120, current_pack := "p", is_animated := false, seen := [] },
    seenSet := [], error_count := 0, total_processed := 0 }

/-- State in which the identity of `stSmall` was already admitted. -/
def gSeen : Globals :=
  { gMid with seenSet := ["x1"], st := { gMid.st with seen := ["x1"] } }

/-- Directory oracle answering a plain BadRequest for the first candidate
and "free" for every other name. -/
def dirSwallow : String → GetResp := fun s =>
  if s = slug_candidate "stickies" "packbot" 1 then GetResp.badOther else GetResp.invalid

/-- Directory oracle: candidate 4 exists, everything else is free. -/
def dirFoundAt4 : String → GetResp := fun s =>
  if s = slug_candidate "stickies" "packbot" 4 then GetResp.found else GetResp.invalid

/-- A queue filled to `MAX_QUEUE_SIZE`. -/
def fullQueue : List String := List.replicate 50 "q"

/-- A concrete allocator state used to exercise the two reset paths. -/
def s0 : BotState :=
  { index := 5, count := 7, current_pack := "p", is_animated := true, seen := ["a"] }

/-! Equation lemmas for the branches of `_add`, `_new_pack`, `after_add`
and `process_sticker`. -/

theorem capacity_pos (k : Bool) : 1 ≤ capacity k := by
  cases k <;> simp [capacity, MAX_ANIM, MAX_STATIC]

theorem add_resize_err (env : Env) (st : Sticker) (pack : String) (e : String)
    (h : _maybe_resize_static env.resize st = Except.error e) :
    _add env st pack = (AddOutcome.success, [Effect.resizeAttempt st.file_unique_id]) := by
  unfold _add
  rw [h]

theorem add_ok (env : Env) (st : Sticker) (pack : String) (src : StickerSource)
    (h1 : _maybe_resize_static env.resize st = Except.ok src)
    (h2 : env.add pack st.file_unique_id = AddResp.ok) :
    _add env st pack = (AddOutcome.success,
      [Effect.resizeAttempt st.file_unique_id,
       Effect.appendSet pack st.file_unique_id (anim st)]) := by
  unfold _add
  rw [h1, h2]

theorem add_invalid (env : Env) (st : Sticker) (pack : String) (src : StickerSource)
    (h1 : _maybe_resize_static env.resize st = Except.ok src)
    (h2 : env.add pack st.file_unique_id = AddResp.invalid) :
    _add env st pack = (AddOutcome.packInvalid, [Effect.resizeAttempt st.file_unique_id]) := by
  unfold _add
  rw [h1, h2]

theorem new_pack_ok (env : Env) (s : BotState) (st : Sticker) (name : String)
    (src : StickerSource)
    (hs : _slug env.dir PACK_BASENAME env.bot_user s.index = Except.ok name)
    (hr : _maybe_resize_static env.resize st = Except.ok src)
    (hc : env.create_ok name = true) :
    _new_pack env s st = (Except.ok name,
      [Effect.resizeAttempt st.file_unique_id,
       Effect.createSet name st.file_unique_id (anim st),
       Effect.sendMessage ("New pack created https://t.me/addstickers/" ++ name)]) := by
  unfold _new_pack
  rw [hs, hr]
  simp [hc]

theorem new_pack_resize_err (env : Env) (s : BotState) (st : Sticker) (name : String)
    (e : String)
    (hs : _slug env.dir PACK_BASENAME env.bot_user s.index = Except.ok name)
    (hr : _maybe_resize_static env.resize st = Except.error e) :
    _new_pack env s st = (Except.error (), [Effect.resizeAttempt st.file_unique_id]) := by
  unfold _new_pack
  rw [hs, hr]

theorem after_add_success (env : Env) (g : Globals) (st : Sticker) (effs e2 : List Effect)
    (h : _add env st g.st.current_pack = (AddOutcome.success, e2)) :
    after_add env g st effs =
      { g := { g with
          st := { g.st with count := g.st.count + 1, seen := seen_add g.seenSet st.file_unique_id }
          seenSet := seen_add g.seenSet st.file_unique_id }
        effects := effs ++ e2 ++
          [Effect.save, Effect.react true ("added to pack " ++ g.st.current_pack)]
        requeued := false } := by
  unfold after_add
  rw [h]

theorem after_add_invalid (env : Env) (g : Globals) (st : Sticker) (effs e2 : List Effect)
    (h : _add env st g.st.current_pack = (AddOutcome.packInvalid, e2)) :
    after_add env g st effs =
      { g := { g with st := { g.st with current_pack := "" } }
        effects := effs ++ e2 ++ [Effect.save]
        requeued := true } := by
  unfold after_add
  rw [h]

theorem after_add_raised (env : Env) (g : Globals) (st : Sticker) (effs e2 : List Effect)
    (h : _add env st g.st.current_pack = (AddOutcome.raised, e2)) :
    after_add env g st effs =
      { g := { g with error_count := g.error_count + 1 }
        effects := effs ++ e2 ++ [Effect.react false "processing failed"]
        requeued := false } := by
  unfold after_add
  rw [h]

theorem ps_dup (env : Env) (g : Globals) (st : Sticker)
    (h : g.seenSet.contains st.file_unique_id = true) :
    process_sticker env g st = { g := g, effects := [], requeued := false } := by
  unfold process_sticker
  rw [if_pos h]

theorem ps_no_roll (env : Env) (g : Globals) (st : Sticker)
    (h : g.seenSet.contains st.file_unique_id = false)
    (hc : ¬ (g.st.current_pack = "" ∨ (if anim st then MAX_ANIM else MAX_STATIC) ≤ g.st.count ∨
      g.st.is_animated ≠ anim st)) :
    process_sticker env g st =
      after_add env { g with total_processed := g.total_processed + 1 } st [] := by
  unfold process_sticker
  rw [if_neg (by rw [h]; exact Bool.false_ne_true), if_neg hc]

theorem ps_roll_err (env : Env) (g : Globals) (st : Sticker) (u : Unit) (effs : List Effect)
    (h : g.seenSet.contains st.file_unique_id = false)
    (hc : g.st.current_pack = "" ∨ (if anim st then MAX_ANIM else MAX_STATIC) ≤ g.st.count ∨
      g.st.is_animated ≠ anim st)
    (hnp : _new_pack env (roll g.st (anim st)) st = (Except.error u, effs)) :
    process_sticker env g st =
      { g := { g with
          st := roll g.st (anim st)
          error_count := g.error_count + 1
          total_processed := g.total_processed + 1 }
        effects := effs ++ [Effect.react false "pack creation failed"]
        requeued := false } := by
  unfold process_sticker
  rw [if_neg (by rw [h]; exact Bool.false_ne_true), if_pos hc, hnp]

theorem ps_roll_ok (env : Env) (g : Globals) (st : Sticker) (name : String) (effs : List Effect)
    (h : g.seenSet.contains st.file_unique_id = false)
    (hc : g.st.current_pack = "" ∨ (if anim st then MAX_ANIM else MAX_STATIC) ≤ g.st.count ∨
      g.st.is_animated ≠ anim st)
    (hnp : _new_pack env (roll g.st (anim st)) st = (Except.ok name, effs)) :
    process_sticker env g st =
      after_add env
        { g with
          st := { roll g.st (anim st) with current_pack := name }
          total_processed := g.total_processed + 1 } st
        (effs ++ [Effect.save]) := by
  unfold process_sticker
  rw [if_neg (by rw [h]; exact Bool.false_ne_true), if_pos hc, hnp]

/-- C3 counterexample: at the concrete state (index 5, count 7, pack "p",
animated, seen contains "a"), the bootstrap pack-missing reset does NOT
leave `index` and `seen` unchanged, and the append-failure reset does NOT
blank `memberCount` and `currentKind`, contradicting the claim that a reset
blanks exactly currentPack, memberCount and currentKind and preserves the
rest. -/
theorem reset_scope_cex :
    ¬ (((sync_reset s0).index = s0.index ∧ (sync_reset s0).seen = s0.seen) ∧
       (append_fail_reset s0).count = 0 ∧ (append_fail_reset s0).is_animated = false) := by
  decide

/-- C3 (amended): the bootstrap pack-missing reset (`state.update(_blank_state())`)
replaces the whole record, resetting `index` to 1 and `seen` to [] along with
the pack fields, while the append-failure reset blanks only `currentPack`,
leaving `memberCount`, `currentKind`, `index` and `seen` untouched. -/
theorem reset_scope (s : BotState) :
    sync_reset s = _blank_state ∧
    (append_fail_reset s).current_pack = "" ∧
    (append_fail_reset s).index = s.index ∧
    (append_fail_reset s).count = s.count ∧
    (append_fail_reset s).is_animated = s.is_animated ∧
    (append_fail_reset s).seen = s.seen :=
  ⟨rfl, rfl, rfl, rfl, rfl, rfl⟩

/-- C4: an item whose content identity is already in the `_seen` ledger is
discarded before any counter bump, resize, directory call or reaction: the
globals are returned unchanged, the effect trace is empty and nothing is
re-queued, so the ledger keeps exactly the entry it already had. -/
theorem dedup_no_side_effect (env : Env) (g : Globals) (st : Sticker)
    (h : g.seenSet.contains st.file_unique_id = true) :
    process_sticker env g st = { g := g, effects := [], requeued := false } :=
  ps_dup env g st h

theorem dedup_no_side_effect_witness :
    process_sticker envOk gSeen stSmall = { g := gSeen, effects := [], requeued := false } :=
  dedup_no_side_effect envOk gSeen stSmall (by decide)

/-- C8: arrival of a sticker message with the queue below `MAX_QUEUE_SIZE`
enqueues it with no signal; arrival with the queue full leaves the queue
unchanged and immediately signals a thumbs-down "queue full - try again
later" reaction instead of blocking. -/
theorem hoover_backpressure (queue : List String) (id : String) :
    (queue.length < MAX_QUEUE_SIZE → hoover queue id = (queue ++ [id], none)) ∧
    (MAX_QUEUE_SIZE ≤ queue.length →
      hoover queue id = (queue, some (Effect.react false "queue full - try again later"))) := by
  constructor
  · intro h
    unfold hoover
    rw [if_pos h]
  · intro h
    unfold hoover
    rw [if_neg (Nat.not_lt.mpr h)]

theorem hoover_backpressure_witness :
    hoover [] "m1" = (["m1"], none) ∧
    hoover fullQueue "m2" = (fullQueue, some (Effect.react false "queue full - try again later")) :=
  ⟨(hoover_backpressure [] "m1").1 (by decide),
   (hoover_backpressure fullQueue "m2").2 (by decide)⟩

/-- C9: a /status or /logs message whose sender differs from the configured
owner id produces no reply at all. -/
theorem owner_only_commands (owner_id sender : Int)
    (queue_size total_processed error_count count seen_count log_count : Nat)
    (current_pack : String) (logs : List String)
    (h : sender ≠ owner_id) :
    status_cmd owner_id sender queue_size total_processed error_count count seen_count
      log_count current_pack = none ∧
    logs_cmd owner_id sender logs = none := by
  constructor
  · unfold status_cmd
    rw [if_pos h]
  · unfold logs_cmd
    rw [if_pos h]

theorem owner_only_commands_witness :
    status_cmd 1 2 0 0 0 0 0 0 "" = none ∧ logs_cmd 1 2 ["line"] = none :=
  owner_only_commands 1 2 0 0 0 0 0 0 "" ["line"] (by decide)

/-! The capacity invariant. -/

theorem after_add_inv (env : Env) (g : Globals) (st : Sticker) (effs : List Effect)
    (h : g.st.count + 1 ≤ capacity g.st.is_animated) :
    Inv (after_add env g st effs).g := by
  rcases hadd : _add env st g.st.current_pack with ⟨o, e2⟩
  cases o with
  | success =>
    rw [after_add_success env g st effs e2 hadd]
    intro _
    exact h
  | packInvalid =>
    rw [after_add_invalid env g st effs e2 hadd]
    intro hp
    exact absurd rfl hp
  | raised =>
    rw [after_add_raised env g st effs e2 hadd]
    intro _
    exact Nat.le_of_succ_le h

theorem process_inv (env : Env) (g : Globals) (st : Sticker) (hg : Inv g) :
    Inv (process_sticker env g st).g := by
  cases hdup : g.seenSet.contains st.file_unique_id with
  | true =>
    rw [ps_dup env g st hdup]
    exact hg
  | false =>
    by_cases hc : g.st.current_pack = "" ∨
        (if anim st then MAX_ANIM else MAX_STATIC) ≤ g.st.count ∨ g.st.is_animated ≠ anim st
    · rcases hnp : _new_pack env (roll g.st (anim st)) st with ⟨res, effs⟩
      cases res with
      | error u =>
        rw [ps_roll_err env g st u effs hdup hc hnp]
        intro _
        exact Nat.zero_le _
      | ok name =>
        rw [ps_roll_ok env g st name effs hdup hc hnp]
        apply after_add_inv
        exact capacity_pos (anim st)
    · rw [ps_no_roll env g st hdup hc]
      apply after_add_inv
      show g.st.count + 1 ≤ capacity g.st.is_animated
      push_neg at hc
      obtain ⟨h1, h2, h3⟩ := hc
      have hcap : capacity g.st.is_animated = (if anim st then MAX_ANIM else MAX_STATIC) := by
        rw [h3]
        rfl
      omega

theorem run_inv (env : Env) (sts : List Sticker) (g : Globals) (hg : Inv g) :
    Inv (run env g sts) := by
  induction sts generalizing g with
  | nil => exact hg
  | cons st rest ih => exact ih (process_sticker env g st).g (process_inv env g st hg)

/-- C5: the capacity invariant.  First conjunct: along any sequence of
processed items, under any environment, `count` never exceeds the capacity
of the current pack kind (120 static, 50 animated/video) while
`current_pack` is non-empty.  Second conjunct: an item arriving when
`count` equals the capacity of its kind triggers exactly one rollover —
one new pack is created, `index` advances by one, and the item is placed
with `count` reset to 1. -/
theorem capacity_invariant_rollover :
    (∀ (env : Env) (g : Globals) (sts : List Sticker), Inv g → Inv (run env g sts)) ∧
    (∀ (env : Env) (g : Globals) (st : Sticker) (name : String) (src : StickerSource),
      g.seenSet.contains st.file_unique_id = false →
      g.st.current_pack ≠ "" →
      g.st.is_animated = anim st →
      g.st.count = capacity (anim st) →
      _slug env.dir PACK_BASENAME env.bot_user (g.st.index + 1) = Except.ok name →
      _maybe_resize_static env.resize st = Except.ok src →
      env.create_ok name = true →
      env.add name st.file_unique_id = AddResp.ok →
      (process_sticker env g st).g.st.count = 1 ∧
      (process_sticker env g st).g.st.current_pack = name ∧
      (process_sticker env g st).g.st.index = g.st.index + 1 ∧
      (process_sticker env g st).effects.countP is_create = 1) := by
  constructor
  · intro env g sts hg
    exact run_inv env sts g hg
  · intro env g st name src h0 h1 h2 h3 hslug hres hcr hadd
    have hroll : (roll g.st (anim st)).index = g.st.index + 1 := by
      simp [roll, if_neg h1]
    have hcond : g.st.current_pack = "" ∨
        (if anim st then MAX_ANIM else MAX_STATIC) ≤ g.st.count ∨
        g.st.is_animated ≠ anim st := by
      refine Or.inr (Or.inl ?_)
      rw [h3]
      rfl
    have hnp : _new_pack env (roll g.st (anim st)) st = (Except.ok name,
        [Effect.resizeAttempt st.file_unique_id,
         Effect.createSet name st.file_unique_id (anim st),
         Effect.sendMessage ("New pack created https://t.me/addstickers/" ++ name)]) := by
      apply new_pack_ok env (roll g.st (anim st)) st name src _ hres hcr
      rw [hroll]
      exact hslug
    rw [ps_roll_ok env g st name _ h0 hcond hnp]
    rw [after_add_success env _ st _ _ (add_ok env st name src hres hadd)]
    refine ⟨rfl, rfl, ?_, ?_⟩
    · exact hroll
    · simp [List.countP_cons, is_create]

set_option maxRecDepth 4000 in
theorem capacity_invariant_rollover_witness :
    Inv (run envOk gFull [stSmall]) ∧
    ((process_sticker envOk gFull stSmall).g.st.count = 1 ∧
     (process_sticker envOk gFull stSmall).g.st.current_pack = "stickies_2_by_packbot" ∧
     (process_sticker envOk gFull stSmall).g.st.index = gFull.st.index + 1 ∧
     (process_sticker envOk gFull stSmall).effects.countP is_create = 1) :=
  ⟨capacity_invariant_rollover.1 envOk gFull [stSmall] (fun _ => by decide),
   capacity_invariant_rollover.2 envOk gFull stSmall "stickies_2_by_packbot"
     (StickerSource.fileId "fx1") (by decide) (by decide) (by decide) (by decide) rfl rfl rfl rfl⟩

/-! C1: resize failure during admission. -/

/-- C1 counterexample: with Pillow unavailable and an oversized static item
(`stBig`, 600x600, identity "y1") arriving while a static pack with room is
current (`gMid`), the admission is NOT reported as a failure and the Ledger
and Allocator State are NOT left unchanged: the resize raises, `_add`
swallows the ValueError and returns True, so the identity is added to
`seen`, `count` is incremented, a thumbs-up (success) reaction is sent and
no thumbs-down reaction of any kind occurs. -/
theorem resize_failure_marked_success_cex :
    _maybe_resize_static envNoPillow.resize stBig = Except.error "Need Pillow for resizing" ∧
    ¬ ((process_sticker envNoPillow gMid stBig).g.seenSet = gMid.seenSet) ∧
    (process_sticker envNoPillow gMid stBig).g.seenSet = ["y1"] ∧
    (process_sticker envNoPillow gMid stBig).g.st.count = gMid.st.count + 1 ∧
    Effect.react true "added to pack stickies_2_by_packbot" ∈
      (process_sticker envNoPillow gMid stBig).effects ∧
    ((process_sticker envNoPillow gMid stBig).effects.filter fun e =>
      match e with
      | Effect.react false _ => true
      | _ => false) = [] := by
  refine ⟨rfl, ?_⟩
  decide

/-- C1 (amended): when the resize step is unavailable or fails for an item
that goes through `_add` (a current pack exists, has room and matches the
kind), the item is recorded as a SUCCESS: its identity enters the Ledger,
`memberCount` is incremented, a success acknowledgment is sent and nothing
is appended to the Pack Directory — a permanent skip, not retryable.  Only
when the resize failure happens inside `_new_pack` (here: no current pack)
is the item reported as failed with the Ledger left unchanged — and even
then the rollover mutations to count/kind already happened. -/
theorem resize_failure_skip_policy :
    (∀ (env : Env) (g : Globals) (st : Sticker) (e : String),
      g.seenSet.contains st.file_unique_id = false →
      g.st.current_pack ≠ "" →
      g.st.count < (if anim st then MAX_ANIM else MAX_STATIC) →
      g.st.is_animated = anim st →
      _maybe_resize_static env.resize st = Except.error e →
      (process_sticker env g st).g.seenSet = st.file_unique_id :: g.seenSet ∧
      (process_sticker env g st).g.st.count = g.st.count + 1 ∧
      (process_sticker env g st).g.st.current_pack = g.st.current_pack ∧
      Effect.react true ("added to pack " ++ g.st.current_pack) ∈
        (process_sticker env g st).effects ∧
      (process_sticker env g st).effects.countP is_append = 0 ∧
      (process_sticker env g st).requeued = false) ∧
    (∀ (env : Env) (g : Globals) (st : Sticker) (e : String) (name : String),
      g.seenSet.contains st.file_unique_id = false →
      g.st.current_pack = "" →
      _slug env.dir PACK_BASENAME env.bot_user g.st.index = Except.ok name →
      _maybe_resize_static env.resize st = Except.error e →
      (process_sticker env g st).g.seenSet = g.seenSet ∧
      (process_sticker env g st).g.st.current_pack = "" ∧
      Effect.react false "pack creation failed" ∈ (process_sticker env g st).effects ∧
      (process_sticker env g st).effects.countP is_append = 0 ∧
      (process_sticker env g st).effects.countP is_create = 0) := by
  constructor
  · intro env g st e h0 h1 h2 h3 hres
    have hc : ¬ (g.st.current_pack = "" ∨
        (if anim st then MAX_ANIM else MAX_STATIC) ≤ g.st.count ∨
        g.st.is_animated ≠ anim st) := by
      push_neg
      exact ⟨h1, h2, h3⟩
    rw [ps_no_roll env g st h0 hc]
    rw [after_add_success env _ st _ _ (add_resize_err env st _ e hres)]
    refine ⟨?_, rfl, rfl, ?_, ?_, rfl⟩
    · show seen_add g.seenSet st.file_unique_id = st.file_unique_id :: g.seenSet
      unfold seen_add
      rw [if_neg (by rw [h0]; exact Bool.false_ne_true)]
    · simp
    · simp [List.countP_cons, is_append]
  · intro env g st e name h0 h1 hslug hres
    have hc : g.st.current_pack = "" ∨
        (if anim st then MAX_ANIM else MAX_STATIC) ≤ g.st.count ∨
        g.st.is_animated ≠ anim st := Or.inl h1
    have hroll : (roll g.st (anim st)).index = g.st.index := by
      simp [roll, if_pos h1]
    have hnp : _new_pack env (roll g.st (anim st)) st =
        (Except.error (), [Effect.resizeAttempt st.file_unique_id]) := by
      apply new_pack_resize_err env (roll g.st (anim st)) st name e _ hres
      rw [hroll]
      exact hslug
    rw [ps_roll_err env g st () _ h0 hc hnp]
    refine ⟨rfl, ?_, ?_, ?_, ?_⟩
    · show (roll g.st (anim st)).current_pack = ""
      rw [show (roll g.st (anim st)).current_pack = g.st.current_pack from rfl, h1]
    · simp
    · simp [List.countP_cons, is_append]
    · simp [List.countP_cons, is_create]

theorem resize_failure_skip_policy_witness :
    (process_sticker envNoPillow gMid stBig).g.seenSet = "y1" :: gMid.seenSet ∧
    (process_sticker envNoPillow gMid stBig).g.st.count = gMid.st.count + 1 ∧
    (process_sticker envNoPillow gMid stBig).g.st.current_pack = gMid.st.current_pack ∧
    Effect.react true ("added to pack " ++ gMid.st.current_pack) ∈
      (process_sticker envNoPillow gMid stBig).effects ∧
    (process_sticker envNoPillow gMid stBig).effects.countP is_append = 0 ∧
    (process_sticker envNoPillow gMid stBig).requeued = false :=
  resize_failure_skip_policy.1 envNoPillow gMid stBig "Need Pillow for resizing"
    (by decide) (by decide) (by decide) (by decide) rfl

/-! C2: recovery from a vanished pack on append. -/

set_option maxRecDepth 8000 in
/-- C2 counterexample.  Two scenarios at concrete inputs.  First, with a
directory that keeps answering STICKERSET_INVALID on append
(`envInvalidAdd`), the item is re-queued on the first failure AND re-queued
again after the retry fails — the error does not propagate, so recovery is
not bounded to one attempt.  Second, with a directory where only the old
pack vanished (`envVanishOld`), the recovery succeeds: a new pack is
created and the item appended, but `index` stays at 2 — it does not
increase by 1, because `index += 1 if current_pack else 0` adds 0 when the
pack was just blanked. -/
theorem vanished_pack_recovery_cex :
    (process_sticker envInvalidAdd gMid stSmall).requeued = true ∧
    (process_sticker envInvalidAdd
      (process_sticker envInvalidAdd gMid stSmall).g stSmall).requeued = true ∧
    ((process_sticker envVanishOld gOld stSmall).requeued = true ∧
     (process_sticker envVanishOld
       (process_sticker envVanishOld gOld stSmall).g stSmall).g.st.count = 1 ∧
     (process_sticker envVanishOld
       (process_sticker envVanishOld gOld stSmall).g stSmall).g.seenSet = ["x1"] ∧
     (process_sticker envVanishOld
       (process_sticker envVanishOld gOld stSmall).g stSmall).g.st.index = gOld.st.index) := by
  decide

/-- C2 (amended): when an append reports the pack vanished, `current_pack`
is blanked and the item is re-queued (no immediate in-place retry, no index
change, no ledger change, no pack created).  When the item is dequeued
again with `current_pack` blank, exactly one new pack is created and the
same item is appended to it, but `index` does NOT increase — the increment
is skipped because `current_pack` is blank at that point.  If that retry
append succeeds the item is admitted with count 1; if it also reports the
pack vanished the item is simply re-queued once more — recovery is not
bounded to one attempt and no error propagates. -/
theorem vanished_pack_requeue_recovery :
    (∀ (env : Env) (g : Globals) (st : Sticker) (src : StickerSource),
      g.seenSet.contains st.file_unique_id = false →
      g.st.current_pack ≠ "" →
      g.st.count < (if anim st then MAX_ANIM else MAX_STATIC) →
      g.st.is_animated = anim st →
      _maybe_resize_static env.resize st = Except.ok src →
      env.add g.st.current_pack st.file_unique_id = AddResp.invalid →
      (process_sticker env g st).requeued = true ∧
      (process_sticker env g st).g.st.current_pack = "" ∧
      (process_sticker env g st).g.st.index = g.st.index ∧
      (process_sticker env g st).g.seenSet = g.seenSet ∧
      (process_sticker env g st).effects.countP is_create = 0) ∧
    (∀ (env : Env) (g : Globals) (st : Sticker) (src : StickerSource) (name : String),
      g.seenSet.contains st.file_unique_id = false →
      g.st.current_pack = "" →
      _slug env.dir PACK_BASENAME env.bot_user g.st.index = Except.ok name →
      _maybe_resize_static env.resize st = Except.ok src →
      env.create_ok name = true →
      env.add name st.file_unique_id = AddResp.invalid →
      (process_sticker env g st).requeued = true ∧
      (process_sticker env g st).g.st.current_pack = "" ∧
      (process_sticker env g st).g.st.index = g.st.index ∧
      (process_sticker env g st).effects.countP is_create = 1) ∧
    (∀ (env : Env) (g : Globals) (st : Sticker) (src : StickerSource) (name : String),
      g.seenSet.contains st.file_unique_id = false →
      g.st.current_pack = "" →
      _slug env.dir PACK_BASENAME env.bot_user g.st.index = Except.ok name →
      _maybe_resize_static env.resize st = Except.ok src →
      env.create_ok name = true →
      env.add name st.file_unique_id = AddResp.ok →
      (process_sticker env g st).requeued = false ∧
      (process_sticker env g st).g.st.current_pack = name ∧
      (process_sticker env g st).g.st.index = g.st.index ∧
      (process_sticker env g st).g.st.count = 1 ∧
      (process_sticker env g st).g.seenSet = st.file_unique_id :: g.seenSet ∧
      (process_sticker env g st).effects.countP is_create = 1) := by
  refine ⟨?_, ?_, ?_⟩
  · intro env g st src h0 h1 h2 h3 hres hadd1
    have hc : ¬ (g.st.current_pack = "" ∨
        (if anim st then MAX_ANIM else MAX_STATIC) ≤ g.st.count ∨
        g.st.is_animated ≠ anim st) := by
      push_neg
      exact ⟨h1, h2, h3⟩
    rw [ps_no_roll env g st h0 hc]
    rw [after_add_invalid env { g with total_processed := g.total_processed + 1 } st []
      [Effect.resizeAttempt st.file_unique_id] (add_invalid env st _ src hres hadd1)]
    refine ⟨rfl, rfl, rfl, rfl, ?_⟩
    simp [List.countP_cons, is_create]
  · intro env g st src name h0 h1 hslug hres hcr hadd2
    have hroll : (roll g.st (anim st)).index = g.st.index := by
      simp [roll, if_pos h1]
    have hnp : _new_pack env (roll g.st (anim st)) st =
        (Except.ok name,
          [Effect.resizeAttempt st.file_unique_id,
           Effect.createSet name st.file_unique_id (anim st),
           Effect.sendMessage ("New pack created https://t.me/addstickers/" ++ name)]) := by
      apply new_pack_ok env _ st name src _ hres hcr
      rw [hroll]
      exact hslug
    rw [ps_roll_ok env g st name _ h0 (Or.inl h1) hnp]
    rw [after_add_invalid env
      { g with
        st := { roll g.st (anim st) with current_pack := name }
        total_processed := g.total_processed + 1 } st _
      [Effect.resizeAttempt st.file_unique_id] (add_invalid env st _ src hres hadd2)]
    refine ⟨rfl, rfl, ?_, ?_⟩
    · exact hroll
    · simp [List.countP_cons, List.countP_append, is_create]
  · intro env g st src name h0 h1 hslug hres hcr hadd2
    have hroll : (roll g.st (anim st)).index = g.st.index := by
      simp [roll, if_pos h1]
    have hnp : _new_pack env (roll g.st (anim st)) st =
        (Except.ok name,
          [Effect.resizeAttempt st.file_unique_id,
           Effect.createSet name st.file_unique_id (anim st),
           Effect.sendMessage ("New pack created https://t.me/addstickers/" ++ name)]) := by
      apply new_pack_ok env _ st name src _ hres hcr
      rw [hroll]
      exact hslug
    rw [ps_roll_ok env g st name _ h0 (Or.inl h1) hnp]
    rw [after_add_success env
      { g with
        st := { roll g.st (anim st) with current_pack := name }
        total_processed := g.total_processed + 1 } st _
      [Effect.resizeAttempt st.file_unique_id,
       Effect.appendSet name st.file_unique_id (anim st)]
      (add_ok env st _ src hres hadd2)]
    refine ⟨rfl, rfl, ?_, rfl, ?_, ?_⟩
    · exact hroll
    · show seen_add g.seenSet st.file_unique_id = st.file_unique_id :: g.seenSet
      unfold seen_add
      rw [if_neg (by rw [h0]; exact Bool.false_ne_true)]
    · simp [List.countP_cons, List.countP_append, is_create]

set_option maxRecDepth 8000 in
theorem vanished_pack_requeue_recovery_witness :
    ((process_sticker envInvalidAdd gMid stSmall).requeued = true ∧
     (process_sticker envInvalidAdd gMid stSmall).g.st.current_pack = "" ∧
     (process_sticker envInvalidAdd gMid stSmall).g.st.index = gMid.st.index ∧
     (process_sticker envInvalidAdd gMid stSmall).g.seenSet = gMid.seenSet ∧
     (process_sticker envInvalidAdd gMid stSmall).effects.countP is_create = 0) ∧
    ((process_sticker envVanishOld gBlank stSmall).requeued = false ∧
     (process_sticker envVanishOld gBlank stSmall).g.st.current_pack = "stickies_2_by_packbot" ∧
     (process_sticker envVanishOld gBlank stSmall).g.st.index = gBlank.st.index ∧
     (process_sticker envVanishOld gBlank stSmall).g.st.count = 1 ∧
     (process_sticker envVanishOld gBlank stSmall).g.seenSet = "x1" :: gBlank.seenSet ∧
     (process_sticker envVanishOld gBlank stSmall).effects.countP is_create = 1) :=
  ⟨vanished_pack_requeue_recovery.1 envInvalidAdd gMid stSmall (StickerSource.fileId "fx1")
     (by decide) (by decide) (by decide) (by decide) rfl rfl,
   vanished_pack_requeue_recovery.2.2 envVanishOld gBlank stSmall (StickerSource.fileId "fx1")
     "stickies_2_by_packbot" (by decide) (by decide) rfl rfl rfl rfl⟩

/-! C6: kind isolation. -/

set_option maxRecDepth 8000 in
/-- C6, recorded as a code bug at a concrete failing input.  Starting from
`gMid` (current pack of static kind, count 3), an animated item `stAnimD`
arrives: the kind mismatch makes the code mutate `is_animated := true` and
`count := 0` in place BEFORE creating the new pack; creation fails
(`envCreateFail`), so the old static pack stays current while the recorded
kind is now animated.  The next animated item `stAnimE` then sees no kind
mismatch and is appended straight into the old static pack with no
rollover: the pack now holds mixed kinds, although the claim says an item
whose kind differs from the current pack always triggers a rollover. -/
theorem mixed_kind_pack_bug :
    gMid.st.is_animated = false ∧ anim stAnimD = true ∧ anim stAnimE = true ∧
    (process_sticker envCreateFail gMid stAnimD).g.st.current_pack = gMid.st.current_pack ∧
    (process_sticker envCreateFail gMid stAnimD).g.st.is_animated = true ∧
    Effect.appendSet gMid.st.current_pack "e1" true ∈
      (process_sticker envCreateFail
        (process_sticker envCreateFail gMid stAnimD).g stAnimE).effects ∧
    (process_sticker envCreateFail
      (process_sticker envCreateFail gMid stAnimD).g stAnimE).effects.countP is_create = 0 := by
  decide

/-! C7: slug allocation. -/

theorem slug_probe_skip (dir : String → GetResp) (base bot : String) (i fuel : Nat)
    (h : dir (slug_candidate base bot i) = GetResp.found ∨
      dir (slug_candidate base bot i) = GetResp.badOther) :
    slug_probe dir base bot i (fuel + 1) = slug_probe dir base bot (i + 1) fuel := by
  rcases h with h | h <;>
    · conv_lhs => rw [slug_probe]
      rw [h]

theorem slug_probe_hit (dir : String → GetResp) (base bot : String) (i fuel : Nat)
    (h : dir (slug_candidate base bot i) = GetResp.invalid) :
    slug_probe dir base bot i (fuel + 1) = Except.ok (slug_candidate base bot i) := by
  unfold slug_probe
  rw [h]

theorem slug_probe_fatal (dir : String → GetResp) (base bot : String) (i fuel : Nat)
    (h : dir (slug_candidate base bot i) = GetResp.fatal) :
    slug_probe dir base bot i (fuel + 1) = Except.error SlugErr.fatalErr := by
  unfold slug_probe
  rw [h]

theorem slug_probe_ok_of (dir : String → GetResp) (base bot : String) :
    ∀ (k i fuel : Nat), k < fuel →
      (∀ j, j < k → dir (slug_candidate base bot (i + j)) = GetResp.found ∨
        dir (slug_candidate base bot (i + j)) = GetResp.badOther) →
      dir (slug_candidate base bot (i + k)) = GetResp.invalid →
      slug_probe dir base bot i fuel = Except.ok (slug_candidate base bot (i + k)) := by
  intro k
  induction k with
  | zero =>
    intro i fuel hk _ hhit
    obtain ⟨f, rfl⟩ : ∃ f, fuel = f + 1 := ⟨fuel - 1, by omega⟩
    rw [slug_probe_hit dir base bot i f (by simpa using hhit)]
    simp
  | succ k ih =>
    intro i fuel hk hskip hhit
    obtain ⟨f, rfl⟩ : ∃ f, fuel = f + 1 := ⟨fuel - 1, by omega⟩
    rw [slug_probe_skip dir base bot i f (by simpa using hskip 0 (Nat.succ_pos k))]
    have hres := ih (i + 1) f (by omega)
      (fun j hj => by
        have hj2 := hskip (j + 1) (by omega)
        have heq : i + (j + 1) = i + 1 + j := by omega
        rw [heq] at hj2
        exact hj2)
      (by
        have heq : i + (k + 1) = i + 1 + k := by omega
        rw [heq] at hhit
        exact hhit)
    rw [hres]
    have heq : i + (k + 1) = i + 1 + k := by omega
    rw [heq]

theorem slug_probe_exhaust (dir : String → GetResp) (base bot : String) :
    ∀ (fuel i : Nat),
      (∀ j, j < fuel → dir (slug_candidate base bot (i + j)) = GetResp.found ∨
        dir (slug_candidate base bot (i + j)) = GetResp.badOther) →
      slug_probe dir base bot i fuel = Except.error SlugErr.exhausted := by
  intro fuel
  induction fuel with
  | zero =>
    intro i _
    rfl
  | succ f ih =>
    intro i h
    rw [slug_probe_skip dir base bot i f (by simpa using h 0 (Nat.succ_pos f))]
    exact ih (i + 1) (fun j hj => by
      have hj2 := h (j + 1) (by omega)
      have heq : i + (j + 1) = i + 1 + j := by omega
      rw [heq] at hj2
      exact hj2)

set_option maxRecDepth 16000 in
/-- C7 counterexample: with a directory whose answer for the first
candidate is a BadRequest that is NOT "does not exist" (`dirSwallow`), the
allocation does not abort: the error is swallowed and probing continues, and
the allocator returns the SECOND candidate.  This contradicts the claim
that any directory error other than "does not exist" aborts the allocation
immediately. -/
theorem slug_swallow_cex :
    dirSwallow (slug_candidate "stickies" "packbot" 1) = GetResp.badOther ∧
    _slug dirSwallow PACK_BASENAME "packbot" 1 =
      Except.ok (slug_candidate "stickies" "packbot" 2) := by
  constructor
  · rfl
  · rfl

/-- C7 (amended): `_slug` probes candidates from startIndex upward and
returns the first one the directory reports as not existing; a directory
BadRequest other than "does not exist" is silently swallowed and probing
continues with the next candidate (only a non-BadRequest failure aborts
the allocation immediately); and only after 1000 candidates with no free
name does it fail with the exhaustion error. -/
theorem slug_probe_policy :
    (∀ (dir : String → GetResp) (base bot : String) (start k : Nat),
      k < 1000 →
      (∀ j, j < k → dir (slug_candidate (_clean base) (_clean bot) (start + j)) = GetResp.found ∨
        dir (slug_candidate (_clean base) (_clean bot) (start + j)) = GetResp.badOther) →
      dir (slug_candidate (_clean base) (_clean bot) (start + k)) = GetResp.invalid →
      _slug dir base bot start = Except.ok (slug_candidate (_clean base) (_clean bot) (start + k))) ∧
    (∀ (dir : String → GetResp) (base bot : String) (start : Nat),
      dir (slug_candidate (_clean base) (_clean bot) start) = GetResp.fatal →
      _slug dir base bot start = Except.error SlugErr.fatalErr) ∧
    (∀ (dir : String → GetResp) (base bot : String) (start : Nat),
      (∀ j, j < 1000 → dir (slug_candidate (_clean base) (_clean bot) (start + j)) = GetResp.found ∨
        dir (slug_candidate (_clean base) (_clean bot) (start + j)) = GetResp.badOther) →
      _slug dir base bot start = Except.error SlugErr.exhausted) := by
  refine ⟨?_, ?_, ?_⟩
  · intro dir base bot start k hk hskip hhit
    unfold _slug
    exact slug_probe_ok_of dir (_clean base) (_clean bot) k start 1000 hk hskip hhit
  · intro dir base bot start h
    unfold _slug
    exact slug_probe_fatal dir (_clean base) (_clean bot) start 999 h
  · intro dir base bot start h
    unfold _slug
    exact slug_probe_exhaust dir (_clean base) (_clean bot) 1000 start h

set_option maxRecDepth 8000 in
theorem slug_probe_policy_witness :
    _slug dirFoundAt4 PACK_BASENAME "packbot" 4 =
      Except.ok (slug_candidate (_clean PACK_BASENAME) (_clean "packbot") (4 + 1)) :=
  slug_probe_policy.1 dirFoundAt4 PACK_BASENAME "packbot" 4 1 (by decide) (by decide) (by decide)

/-! C10: the resize step is load-dependent. -/

/-- C10: resizing of oversized static items depends on queue load, not only
on the item.  First conjunct: for every static item past the 512 px bound,
if the queue holds more than 80 percent of its capacity (qsize over 40) and
a side exceeds 2048, or the queue holds more than 50 percent (qsize over
25) and the downloaded payload exceeds 10 MiB, then `_maybe_resize_static`
raises instead of shrinking.  Remaining conjuncts: the very same oversized
sticker is shrunk successfully at low load and rejected at high load, so
the outcome is not a pure function of the item. -/
theorem resize_load_dependent :
    (∀ (env : ResizeEnv) (st : Sticker),
      anim st = false →
      ((40 < env.queue_size ∧ (2048 < st.width ∨ 2048 < st.height)) ∨
        ((512 < st.width ∨ 512 < st.height) ∧ 25 < env.queue_size ∧
          ∃ n, env.download = some n ∧ 10485760 < n)) →
      ∃ e, _maybe_resize_static env st = Except.error e) ∧
    (_maybe_resize_static resizeGood stBig = Except.ok (StickerSource.buffered 100) ∧
     _maybe_resize_static { resizeGood with queue_size := 26, download := some 10485761 } stBig =
       Except.error "Download failed") := by
  refine ⟨?_, rfl, rfl⟩
  intro env st ha hcase
  have hov : 512 < st.width ∨ 512 < st.height := by
    rcases hcase with ⟨_, hd⟩ | ⟨hov, _⟩
    · rcases hd with hd | hd
      · exact Or.inl (by omega)
      · exact Or.inr (by omega)
    · exact hov
  unfold _maybe_resize_static
  rw [if_neg (by rw [ha]; exact Bool.false_ne_true)]
  rw [if_neg (by unfold MAX_SIDE_STATIC; omega)]
  by_cases hbig : MAX_QUEUE_SIZE * 8 < env.queue_size * 10 ∧ (2048 < st.width ∨ 2048 < st.height)
  · rw [if_pos hbig]
    exact ⟨_, rfl⟩
  · rw [if_neg hbig]
    rcases hcase with ⟨hq, hd⟩ | ⟨_, hq, n, hn, hbytes⟩
    · exact absurd ⟨by unfold MAX_QUEUE_SIZE; omega, hd⟩ hbig
    · by_cases hp : env.pillow = false
      · rw [if_pos hp]
        exact ⟨_, rfl⟩
      · rw [if_neg hp, hn]
        have hcond5 : MAX_QUEUE_SIZE * 5 < env.queue_size * 10 ∧ 10 * 1024 * 1024 < n :=
          ⟨by unfold MAX_QUEUE_SIZE; omega, by omega⟩
        refine ⟨"Download failed", ?_⟩
        show (if MAX_QUEUE_SIZE * 5 < env.queue_size * 10 ∧ 10 * 1024 * 1024 < n then
            Except.error "Download failed"
          else if env.resize_ok = true then
            Except.ok (StickerSource.buffered env.resized_bytes)
          else Except.error "Resize failed") = Except.error "Download failed"
        rw [if_pos hcond5]

theorem resize_load_dependent_witness :
    ∃ e, _maybe_resize_static
      { pillow := true, queue_size := 41, download := some 7, resize_ok := true,
        resized_bytes := 7 } stWide = Except.error e :=
  resize_load_dependent.1
    { pillow := true, queue_size := 41, download := some 7, resize_ok := true,
      resized_bytes := 7 } stWide rfl (Or.inl ⟨by decide, Or.inl (by decide)⟩)

end Stickerbot
